import Mathlib

/-!
Verification of `tools/sample_idxs_to_text.py`, a diagnostic script that
reproduces the deterministic pseudo-random sample ordering of a training run
and prints the raw token ids and/or detokenized text for a half-open range of
consumed-sample indices.

The script itself is pure argument plumbing, a loop over a range, and
conditional formatting.  The external training framework (dataset
construction, data loader, tokenizer) is not part of this repository; per the
specification it is modelled here as a record of deterministic functions of
the configuration (seed, sequence length, sample count, ...).
-/

namespace SampleIdxsToText

/-- Command-line arguments of the script after parsing.  Fields mirror the
`args` object produced by megatron argument parsing plus the extra arguments
added by `_add_network_size_args`.  `sample_id_range` is a list because the
option is declared with one-or-more integer values. -/
structure Args where
  sample_id_range : List Int
  all_tokens : Bool
  print_tokens : Bool
  print_text : Bool
  output_file : Option String
  seed : Int
  seq_length : Int
  train_samples : Int
  data_path : String
  data_impl : String
  split : String
  mmap_warmup : Bool
  deriving DecidableEq

/-- The configuration record passed to the external framework's
`build_train_valid_test_datasets` call; one field per keyword argument of the
call at lines 136-143 of the script. -/
structure DatasetConfig where
  data_prefix : String
  data_impl : String
  splits_string : String
  train_valid_test_num_samples : List Int
  seq_length : Int
  seed : Int
  skip_warmup : Bool
  deriving DecidableEq

/-- Modelled from the spec: a dataset produced by the external framework.
The framework's deterministic index-building logic fixes, for each
consumed-sample index, the token ids of the training sample at that position
of the sample ordering; `sample i` is that list of raw token ids. -/
structure Dataset where
  sample : Int → List Int

/-- Modelled from the spec: the external training framework, a record of
deterministic functions.  `build_train_valid_test_datasets` maps a
configuration to the (train, valid, test) dataset triple;
`detokenize` converts token ids back to text via the training
vocabulary/merge rules; `formatTensor` is the textual rendering of a token
tensor (its first argument tells whether the print threshold was raised by
`--all-tokens`). -/
structure Framework where
  build_train_valid_test_datasets : DatasetConfig → Dataset × Dataset × Dataset
  detokenize : List Int → String
  formatTensor : Bool → List Int → String

/-- Modelled from the spec: the pretraining data loader, which fast-forwards
to the given consumed-samples count and then yields successive samples of the
deterministic ordering. -/
structure DataLoader where
  ds : Dataset
  consumed : Int

/-- Modelled from the spec: `build_pretraining_data_loader(train_ds, consumed)`
returns an iterator positioned at index `consumed` of the sample ordering. -/
def build_pretraining_data_loader (ds : Dataset) (consumed : Int) : DataLoader :=
  ⟨ds, consumed⟩

/-- One `next(data_iterator)` step: yield the sample at the current position
and advance the position by one. -/
def DataLoader.next (dl : DataLoader) : List Int × DataLoader :=
  (dl.ds.sample dl.consumed, ⟨dl.ds, dl.consumed + 1⟩)

/-- The sample yielded by the k-th `next` call on a loader. -/
def DataLoader.nthSample (dl : DataLoader) : Nat → List Int
  | 0 => dl.next.1
  | k + 1 => dl.next.2.nthSample k

/-- Python `range(a, b)` over integers: the list `[a, a+1, ..., b-1]`,
empty when `b ≤ a`. -/
def pyRange (a b : Int) : List Int :=
  (List.range (b - a).toNat).map (fun k : Nat => a + (k : Int))

/-- Helper for `pySplit`: scan the characters, accumulating the current
(reversed) word, emitting a word at each whitespace boundary. -/
def pySplitChars : List Char → List Char → List String
  | [], acc => if acc = [] then [] else [String.mk acc.reverse]
  | c :: rest, acc =>
    if c.isWhitespace then
      (if acc = [] then [] else [String.mk acc.reverse]) ++ pySplitChars rest []
    else pySplitChars rest (c :: acc)

/-- Python `str.split()` with no separator: split on whitespace runs,
discarding empty pieces. -/
def pySplit (s : String) : List String :=
  pySplitChars s.toList []

/-- The literal multi-line string of filler arguments the script appends to
`sys.argv` before initializing megatron (lines 111-120). -/
def requiredIrrelevantArgsSource : String :=
  "\n    --num-layers 1\n    --hidden-size 1\n    --num-attention-heads 1\n    --max-position-embeddings 1000000\n    --eval-interval 1\n    --eval-iters 1\n    --micro-batch-size 1\n    --global-batch-size 1\n    "

/-- `required_irrelevant_args`: the filler argument tokens, obtained by
whitespace-splitting the literal string exactly as the script does. -/
def required_irrelevant_args : List String :=
  pySplit requiredIrrelevantArgsSource

/-- `sys.argv.extend(required_irrelevant_args)` at line 121: the argument
vector seen by megatron is the user-supplied vector followed by the fixed
filler arguments. -/
def extendSysArgv (argv : List String) : List String :=
  argv ++ required_irrelevant_args

/-- Acceptance predicate of the argument parser for `--sample-id-range`
(declared with `type=int, nargs=+, required=True`): any list of one or
more integers is accepted. -/
def sampleIdRangeAccepts (xs : List Int) : Bool :=
  decide (1 ≤ xs.length)

/-- The runtime errors the script can raise after argument parsing:
`ValueError` from the explicit flag validation, or `IndexError` from
subscripting `args.sample_id_range` past its end. -/
inductive ScriptError where
  | valueError (msg : String)
  | indexError
  deriving DecidableEq

/-- The observable result of a successful run: the record lines written by the
loop (to stdout or to `--output-file`, each as one line) and the final summary
line. -/
structure ScriptResult where
  records : List String
  summary : String
  deriving DecidableEq

/-- The dataset configuration the script builds at lines 136-143:
`data_prefix=args.data_path`, `data_impl=args.data_impl`,
`splits_string=args.split`,
`train_valid_test_num_samples=[args.train_samples, 0, 0]`,
`seq_length=args.seq_length`, `seed=args.seed`,
`skip_warmup=(not args.mmap_warmup)`. -/
def datasetConfigOf (args : Args) : DatasetConfig :=
  { data_prefix := args.data_path
    data_impl := args.data_impl
    splits_string := args.split
    train_valid_test_num_samples := [args.train_samples, 0, 0]
    seq_length := args.seq_length
    seed := args.seed
    skip_warmup := !args.mmap_warmup }

/-- `train_ds`: the first component of the triple returned by
`build_train_valid_test_datasets`; the other two components are bound to `_`
by the script. -/
def trainDataset (fw : Framework) (args : Args) : Dataset :=
  (fw.build_train_valid_test_datasets (datasetConfigOf args)).1

/-- The body of the record loop (lines 165-173), iterated over a list of loop
indices while threading the data iterator: for each index `i`, one
`next(data_iterator)` call obtains `tokens`, then an `i`-prefixed tokens line
is written when `--print-tokens` is set, and an `i`-prefixed detokenized text
line is written when `--print-text` is set. -/
def recordLines (detok : List Int → String) (fmt : Bool → List Int → String)
    (args : Args) : DataLoader → List Int → List String × DataLoader
  | dl, [] => ([], dl)
  | dl, i :: rest =>
    let step := dl.next
    let tokens := step.1
    let tokLines : List String :=
      if args.print_tokens then [toString i ++ " " ++ fmt args.all_tokens tokens] else []
    let txtLines : List String :=
      if args.print_text then [toString i ++ " " ++ detok tokens] else []
    let restResult := recordLines detok fmt args step.2 rest
    (tokLines ++ txtLines ++ restResult.1, restResult.2)

/-- The lines the loop writes for a single index `i` when the sample drawn for
`i` is `ds.sample i`: the tokens line first (when `--print-tokens`), then the
text line (when `--print-text`). -/
def perIndexLines (detok : List Int → String) (fmt : Bool → List Int → String)
    (args : Args) (ds : Dataset) (i : Int) : List String :=
  (if args.print_tokens then [toString i ++ " " ++ fmt args.all_tokens (ds.sample i)] else []) ++
    (if args.print_text then [toString i ++ " " ++ detok (ds.sample i)] else [])

/-- The summary line printed at lines 179-180. -/
def summaryLine (r0 r1 : Int) : String :=
  "*** " ++ toString (r1 - r0) ++ " records dumped"

/-- The script body after megatron initialization (lines 129-180): flag
validation raising `ValueError`, dataset construction, data-loader
construction fast-forwarded to `args.sample_id_range[0]`, the record loop
over `range(args.sample_id_range[0], args.sample_id_range[1])`, and the
summary line.  Subscripting `sample_id_range` past its end yields
`IndexError`, at the loader construction for element 0 and at the loop bounds
for element 1. -/
def runScript (fw : Framework) (args : Args) : Except ScriptError ScriptResult :=
  if !(args.print_tokens || args.print_text) then
    .error (.valueError "Need to specify either --print_tokens or --print_text or both")
  else if args.all_tokens && !args.print_tokens then
    .error (.valueError "--all_tokens requires --print_tokens")
  else
    match args.sample_id_range.get? 0 with
    | none => .error .indexError
    | some r0 =>
      let loader := build_pretraining_data_loader (trainDataset fw args) r0
      match args.sample_id_range.get? 1 with
      | none => .error .indexError
      | some r1 =>
        .ok { records := (recordLines fw.detokenize fw.formatTensor args loader (pyRange r0 r1)).1
              summary := summaryLine r0 r1 }

/-! ### Concrete instances for evaluating the model at explicit inputs -/

/-- A concrete external-framework instance: the train dataset ships, for
ordering index `i`, the token ids `[i, seed]`; detokenization and tensor
formatting are simple injective renderings. -/
def exFramework : Framework :=
  { build_train_valid_test_datasets := fun cfg =>
      (⟨fun i => [i, cfg.seed]⟩, ⟨fun _ => [0]⟩, ⟨fun _ => [1]⟩)
    detokenize := fun l => "text" ++ toString l.length
    formatTensor := fun b l => toString b ++ toString l }

/-- A variant of `exFramework` that differs only in the validation and test
datasets it builds. -/
def exFrameworkAlt : Framework :=
  { exFramework with
    build_train_valid_test_datasets := fun cfg =>
      ((exFramework.build_train_valid_test_datasets cfg).1, ⟨fun _ => [2]⟩, ⟨fun _ => [3]⟩) }

/-- A concrete valid invocation: both print flags set, sample id range
`[5, 8]`, seed 42, sequence length 1024, 100 train samples. -/
def exArgs : Args :=
  { sample_id_range := [5, 8]
    all_tokens := false
    print_tokens := true
    print_text := true
    output_file := none
    seed := 42
    seq_length := 1024
    train_samples := 100
    data_path := "data"
    data_impl := "mmap"
    split := "969,30,1"
    mmap_warmup := false }

/-- The invocation with neither `--print-tokens` nor `--print-text`. -/
def exArgsNoFlags : Args := { exArgs with print_tokens := false, print_text := false }

/-- An invocation with `--print-text` and `--all-tokens` but without
`--print-tokens`, over the two-element range `[0, 1]`. -/
def exArgsAllTokensText : Args :=
  { exArgs with sample_id_range := [0, 1], print_tokens := false, all_tokens := true }

/-- An otherwise valid invocation whose `--sample-id-range` got a single
integer. -/
def exArgsSingle : Args := { exArgs with sample_id_range := [5] }

/-- An otherwise valid invocation whose `--sample-id-range` end is below its
start. -/
def exArgsReversed : Args := { exArgs with sample_id_range := [8, 5] }

/-! ### Basic lemmas about the embedded operations -/

lemma pyRange_nil (a b : Int) (h : b ≤ a) : pyRange a b = [] := by
  unfold pyRange
  have h0 : (b - a).toNat = 0 := by omega
  rw [h0]
  rfl

lemma pyRange_cons (a b : Int) (h : a < b) : pyRange a b = a :: pyRange (a + 1) b := by
  unfold pyRange
  have h1 : (b - a).toNat = (b - (a + 1)).toNat + 1 := by omega
  rw [h1, List.range_succ_eq_map, List.map_cons, List.map_map]
  congr 1
  · simp
  · apply List.map_congr_left
    intro k _
    simp only [Function.comp_apply, Nat.succ_eq_add_one]
    push_cast
    ring

lemma pyRange_length (a b : Int) : (pyRange a b).length = (b - a).toNat := by
  unfold pyRange
  simp

lemma nthSample_eq (ds : Dataset) : ∀ (k : Nat) (c : Int),
    (build_pretraining_data_loader ds c).nthSample k = ds.sample (c + k) := by
  intro k
  induction k with
  | zero =>
    intro c
    simp [build_pretraining_data_loader, DataLoader.nthSample, DataLoader.next]
  | succ k ih =>
    intro c
    show DataLoader.nthSample ⟨ds, c⟩ (k + 1) = _
    rw [DataLoader.nthSample]
    have h1 : (DataLoader.next ⟨ds, c⟩).2 = build_pretraining_data_loader ds (c + 1) := rfl
    rw [h1, ih (c + 1)]
    congr 1
    push_cast
    ring

lemma recordLines_run (detok : List Int → String) (fmt : Bool → List Int → String)
    (args : Args) (ds : Dataset) (b : Int) : ∀ (n : Nat) (c : Int), (b - c).toNat = n →
    recordLines detok fmt args ⟨ds, c⟩ (pyRange c b) =
      ((pyRange c b).flatMap (perIndexLines detok fmt args ds), ⟨ds, max c b⟩) := by
  intro n
  induction n with
  | zero =>
    intro c hn
    have hb : b ≤ c := by omega
    rw [pyRange_nil c b hb]
    simp [recordLines, max_eq_left hb]
  | succ n ih =>
    intro c hn
    have hlt : c < b := by omega
    rw [pyRange_cons c b hlt, recordLines]
    have hnext1 : (DataLoader.next ⟨ds, c⟩).1 = ds.sample c := rfl
    have hnext2 : (DataLoader.next ⟨ds, c⟩).2 = ⟨ds, c + 1⟩ := rfl
    rw [hnext1, hnext2, ih (c + 1) (by omega)]
    simp only [List.flatMap_cons]
    refine Prod.ext ?_ ?_
    · simp [perIndexLines]
    · show (⟨ds, max (c + 1) b⟩ : DataLoader) = ⟨ds, max c b⟩
      rw [max_eq_right (by omega : c + 1 ≤ b), max_eq_right (by omega : c ≤ b)]

lemma recordLines_fst (detok : List Int → String) (fmt : Bool → List Int → String)
    (args : Args) (ds : Dataset) (c b : Int) :
    (recordLines detok fmt args ⟨ds, c⟩ (pyRange c b)).1 =
      (pyRange c b).flatMap (perIndexLines detok fmt args ds) := by
  rw [recordLines_run detok fmt args ds b ((b - c).toNat) c rfl]

lemma runScript_ok_closed (fw : Framework) (args : Args) (r0 r1 : Int)
    (hr : args.sample_id_range = [r0, r1])
    (hp : (args.print_tokens || args.print_text) = true)
    (ha : (args.all_tokens && !args.print_tokens) = false) :
    runScript fw args = Except.ok
      { records := (pyRange r0 r1).flatMap
          (perIndexLines fw.detokenize fw.formatTensor args (trainDataset fw args))
        summary := summaryLine r0 r1 } := by
  unfold runScript
  rw [hr, hp, ha]
  simp only [Bool.not_true, Bool.false_eq_true, if_false, List.get?]
  rw [show build_pretraining_data_loader (trainDataset fw args) r0 =
      ⟨trainDataset fw args, r0⟩ from rfl]
  rw [recordLines_fst]

/-! ### Claim theorems -/

/-- C1, counterexample to the claim as stated: the invocation
`--print-text --all-tokens --sample-id-range 0 1` has a two-element range and
`--print-text` set, yet the script raises `ValueError` (because
`--all-tokens` was given without `--print-tokens`) and writes no record line
for index 0, contradicting "writes one record line per index". -/
theorem c1_counterexample :
    exArgsAllTokensText.sample_id_range = [0, 1] ∧
    exArgsAllTokensText.print_text = true ∧
    runScript exFramework exArgsAllTokensText =
      Except.error (ScriptError.valueError "--all_tokens requires --print_tokens") :=
  ⟨rfl, rfl, by rfl⟩

/-- C1 (amended): for every invocation with a two-element
`--sample-id-range [start, stop]`, at least one of `--print-tokens` /
`--print-text` set, and `--all-tokens` not set without `--print-tokens`, the
script writes exactly, for each index `i` of the half-open range
`[start, stop)` in order: the sample's raw token ids prefixed by `i` when
`--print-tokens` is set, then the sample's detokenized text prefixed by `i`
when `--print-text` is set; no line for any index outside the range. -/
theorem c1_record_lines (fw : Framework) (args : Args) (a b : Int)
    (hr : args.sample_id_range = [a, b])
    (hp : (args.print_tokens || args.print_text) = true)
    (ha : (args.all_tokens && !args.print_tokens) = false) :
    runScript fw args = Except.ok
      { records := (pyRange a b).flatMap (fun i =>
          (if args.print_tokens then
              [toString i ++ " " ++
                fw.formatTensor args.all_tokens ((trainDataset fw args).sample i)]
            else []) ++
          (if args.print_text then
              [toString i ++ " " ++ fw.detokenize ((trainDataset fw args).sample i)]
            else []))
        summary := summaryLine a b } :=
  runScript_ok_closed fw args a b hr hp ha

/-- Witness for C1 at the concrete invocation `exArgs` (range `[5, 8]`, both
print flags): three indices, two lines each, tokens line first. -/
theorem c1_witness :
    runScript exFramework exArgs = Except.ok
      { records := ["5 false[5, 42]", "5 text2", "6 false[6, 42]", "6 text2",
          "7 false[7, 42]", "7 text2"]
        summary := "*** 3 records dumped" } :=
  (c1_record_lines exFramework exArgs 5 8 rfl rfl rfl).trans (by rfl)

/-- C2: the script is deterministic: with the external framework's dataset
construction and iteration modelled as deterministic functions, two runs on
identical command-line arguments produce identical output. -/
theorem c2_deterministic (fw : Framework) (args1 args2 : Args) (h : args1 = args2)
    (out1 out2 : Except ScriptError ScriptResult)
    (h1 : runScript fw args1 = out1) (h2 : runScript fw args2 = out2) :
    out1 = out2 := by
  subst h
  subst h1
  subst h2
  rfl

/-- Witness for C2: a run at the concrete invocation `exArgs` coincides with
the explicitly evaluated output of a second run on the same arguments. -/
theorem c2_witness :
    runScript exFramework exArgs = Except.ok
      { records := ["5 false[5, 42]", "5 text2", "6 false[6, 42]", "6 text2",
          "7 false[7, 42]", "7 text2"]
        summary := "*** 3 records dumped" } :=
  c2_deterministic exFramework exArgs exArgs rfl (runScript exFramework exArgs)
    (Except.ok
      { records := ["5 false[5, 42]", "5 text2", "6 false[6, 42]", "6 text2",
          "7 false[7, 42]", "7 text2"]
        summary := "*** 3 records dumped" })
    rfl (by rfl)

/-- C3: the data loader is constructed with consumed-samples count
`sample_id_range[0]`, its k-th yielded sample is the sample at index
`sample_id_range[0] + k` of the deterministic ordering, and loop step `k`
writes the lines of exactly that sample. -/
theorem c3_consumed_samples (fw : Framework) (args : Args) (r0 r1 : Int)
    (hr : args.sample_id_range = [r0, r1])
    (hp : (args.print_tokens || args.print_text) = true)
    (ha : (args.all_tokens && !args.print_tokens) = false) :
    (build_pretraining_data_loader (trainDataset fw args) r0).consumed = r0 ∧
    (∀ k : Nat, (build_pretraining_data_loader (trainDataset fw args) r0).nthSample k =
      (trainDataset fw args).sample (r0 + (k : Int))) ∧
    runScript fw args = Except.ok
      { records := (List.range (r1 - r0).toNat).flatMap (fun k : Nat =>
          perIndexLines fw.detokenize fw.formatTensor args (trainDataset fw args)
            (r0 + (k : Int)))
        summary := summaryLine r0 r1 } := by
  refine ⟨rfl, fun k => nthSample_eq (trainDataset fw args) k r0, ?_⟩
  refine (runScript_ok_closed fw args r0 r1 hr hp ha).trans ?_
  unfold pyRange
  rw [List.flatMap_map]

/-- Witness for C3 at the concrete invocation `exArgs`: the loader starts at
consumed count 5 and its sample at step 2 is ordering index 7. -/
theorem c3_witness :
    (build_pretraining_data_loader (trainDataset exFramework exArgs) 5).consumed = 5 ∧
    (build_pretraining_data_loader (trainDataset exFramework exArgs) 5).nthSample 2 =
      (trainDataset exFramework exArgs).sample 7 := by
  obtain ⟨h1, h2, -⟩ := c3_consumed_samples exFramework exArgs 5 8 rfl rfl rfl
  exact ⟨h1, (h2 2).trans (congrArg _ (by norm_num))⟩

/-- C4: dataset construction requests `[args.train_samples, 0, 0]` samples
for the (train, valid, test) splits, and the returned validation and test
datasets are never used: two frameworks agreeing on the train dataset, the
detokenizer and the tensor formatter produce identical script runs even if
their valid/test datasets differ. -/
theorem c4_valid_test_unused (args : Args) :
    (datasetConfigOf args).train_valid_test_num_samples = [args.train_samples, 0, 0] ∧
    ∀ fw fw' : Framework,
      fw.detokenize = fw'.detokenize →
      fw.formatTensor = fw'.formatTensor →
      (fw.build_train_valid_test_datasets (datasetConfigOf args)).1 =
        (fw'.build_train_valid_test_datasets (datasetConfigOf args)).1 →
      runScript fw args = runScript fw' args := by
  refine ⟨rfl, ?_⟩
  intro fw fw' h1 h2 h3
  have h3' : trainDataset fw args = trainDataset fw' args := h3
  unfold runScript
  rw [h1, h2, h3']

/-- Witness for C4: `exFramework` and `exFrameworkAlt` differ only in their
valid/test datasets, and the run at `exArgs` is identical. -/
theorem c4_witness :
    (datasetConfigOf exArgs).train_valid_test_num_samples = [100, 0, 0] ∧
    runScript exFramework exArgs = runScript exFrameworkAlt exArgs := by
  obtain ⟨h1, h2⟩ := c4_valid_test_unused exArgs
  exact ⟨h1, h2 exFramework exFrameworkAlt rfl rfl rfl⟩

/-- C5: the user-supplied seed, sequence length and train sample count are
passed through unchanged to the framework's dataset construction call. -/
theorem c5_config_passthrough (args : Args) :
    (datasetConfigOf args).seed = args.seed ∧
    (datasetConfigOf args).seq_length = args.seq_length ∧
    (datasetConfigOf args).train_valid_test_num_samples.head? = some args.train_samples :=
  ⟨rfl, rfl, rfl⟩

/-- C6: when `--print-text` is set, the text written for each in-range index
`i` is the tokenizer's `detokenize` applied to that sample's full list of
token ids, the same token list that the `--print-tokens` line renders. -/
theorem c6_detokenize_text (fw : Framework) (args : Args) (r0 r1 : Int)
    (hr : args.sample_id_range = [r0, r1])
    (ht : args.print_text = true)
    (ha : (args.all_tokens && !args.print_tokens) = false) :
    ∀ res, runScript fw args = Except.ok res →
      ∀ i ∈ pyRange r0 r1,
        (toString i ++ " " ++ fw.detokenize ((trainDataset fw args).sample i)) ∈ res.records ∧
        (args.print_tokens = true →
          (toString i ++ " " ++
              fw.formatTensor args.all_tokens ((trainDataset fw args).sample i)) ∈ res.records) := by
  have hp : (args.print_tokens || args.print_text) = true := by
    rw [ht]
    exact Bool.or_true _
  intro res hres i hi
  have hclosed := runScript_ok_closed fw args r0 r1 hr hp ha
  rw [hres] at hclosed
  have hres2 := Except.ok.inj hclosed
  rw [hres2]
  constructor
  · exact List.mem_flatMap.mpr ⟨i, hi, by simp [perIndexLines, ht]⟩
  · intro hpt
    exact List.mem_flatMap.mpr ⟨i, hi, by simp [perIndexLines, hpt]⟩

/-- Witness for C6 at the concrete invocation `exArgs`, index 6: the text
line is the detokenization of sample 6 and appears among the records, as does
the tokens line for the same sample. -/
theorem c6_witness :
    (toString (6 : Int) ++ " " ++
        exFramework.detokenize ((trainDataset exFramework exArgs).sample 6)) ∈
      ["5 false[5, 42]", "5 text2", "6 false[6, 42]", "6 text2",
        "7 false[7, 42]", "7 text2"] ∧
    (toString (6 : Int) ++ " " ++
        exFramework.formatTensor exArgs.all_tokens ((trainDataset exFramework exArgs).sample 6)) ∈
      ["5 false[5, 42]", "5 text2", "6 false[6, 42]", "6 text2",
        "7 false[7, 42]", "7 text2"] := by
  have h := c6_detokenize_text exFramework exArgs 5 8 rfl rfl rfl
    { records := ["5 false[5, 42]", "5 text2", "6 false[6, 42]", "6 text2",
        "7 false[7, 42]", "7 text2"]
      summary := "*** 3 records dumped" }
    (by rfl) 6 (by decide)
  exact ⟨h.1, h.2 rfl⟩

/-- C7: before initializing the framework the script unconditionally appends
the fixed filler arguments to the argument vector, independent of user
input. -/
theorem c7_filler_args (argv : List String) :
    extendSysArgv argv = argv ++
      ["--num-layers", "1", "--hidden-size", "1", "--num-attention-heads", "1",
        "--max-position-embeddings", "1000000", "--eval-interval", "1",
        "--eval-iters", "1", "--micro-batch-size", "1", "--global-batch-size", "1"] := by
  have h : required_irrelevant_args =
      ["--num-layers", "1", "--hidden-size", "1", "--num-attention-heads", "1",
        "--max-position-embeddings", "1000000", "--eval-interval", "1",
        "--eval-iters", "1", "--micro-batch-size", "1", "--global-batch-size", "1"] := by
    decide
  unfold extendSysArgv
  rw [h]

/-- C8: with neither print flag, or with `--all-tokens` but not
`--print-tokens`, the script raises `ValueError`, and the outcome does not
depend on the framework at all (so no dataset is built and no record is
written); with a valid flag combination no `ValueError` is raised. -/
theorem c8_flag_validation (fw : Framework) (args : Args) :
    (args.print_tokens = false ∧ args.print_text = false →
      runScript fw args = Except.error (ScriptError.valueError
        "Need to specify either --print_tokens or --print_text or both") ∧
      ∀ fw' : Framework, runScript fw' args = runScript fw args) ∧
    (args.all_tokens = true ∧ args.print_tokens = false ∧ args.print_text = true →
      runScript fw args = Except.error (ScriptError.valueError
        "--all_tokens requires --print_tokens") ∧
      ∀ fw' : Framework, runScript fw' args = runScript fw args) ∧
    ((args.print_tokens || args.print_text) = true →
      (args.all_tokens && !args.print_tokens) = false →
      ∀ m, runScript fw args ≠ Except.error (ScriptError.valueError m)) := by
  refine ⟨?_, ?_, ?_⟩
  · rintro ⟨h1, h2⟩
    exact ⟨by simp [runScript, h1, h2], fun fw' => by simp [runScript, h1, h2]⟩
  · rintro ⟨h1, h2, h3⟩
    exact ⟨by simp [runScript, h1, h2, h3], fun fw' => by simp [runScript, h1, h2, h3]⟩
  · intro hp ha m
    unfold runScript
    rw [hp, ha]
    simp only [Bool.not_true, Bool.false_eq_true, if_false]
    cases h0 : args.sample_id_range.get? 0 with
    | none => simp
    | some r0 =>
      cases h1 : args.sample_id_range.get? 1 with
      | none => simp
      | some r1 => simp

/-- Witness for C8 at concrete invocations: no flags yields the first
`ValueError`, `--all-tokens` with only `--print-text` yields the second, and
the valid invocation `exArgs` yields no `ValueError`. -/
theorem c8_witness :
    runScript exFramework exArgsNoFlags = Except.error (ScriptError.valueError
      "Need to specify either --print_tokens or --print_text or both") ∧
    runScript exFrameworkAlt exArgsAllTokensText = Except.error (ScriptError.valueError
      "--all_tokens requires --print_tokens") ∧
    runScript exFramework exArgs ≠ Except.error (ScriptError.valueError "oops") :=
  ⟨((c8_flag_validation exFramework exArgsNoFlags).1 ⟨rfl, rfl⟩).1,
    ((c8_flag_validation exFrameworkAlt exArgsAllTokensText).2.1 ⟨rfl, rfl, rfl⟩).1,
    (c8_flag_validation exFramework exArgs).2.2 rfl rfl "oops"⟩

/-- C9: the summary line always reports `sample_id_range[1] -
sample_id_range[0]` records; when the range is ascending this equals the
number of loop indices written, but when `sample_id_range[1] <
sample_id_range[0]` the loop writes zero records and the reported count is
negative. -/
theorem c9_summary_count (fw : Framework) (args : Args) (r0 r1 : Int)
    (hr : args.sample_id_range = [r0, r1])
    (hp : (args.print_tokens || args.print_text) = true)
    (ha : (args.all_tokens && !args.print_tokens) = false) :
    runScript fw args = Except.ok
      { records := (pyRange r0 r1).flatMap
          (perIndexLines fw.detokenize fw.formatTensor args (trainDataset fw args))
        summary := "*** " ++ toString (r1 - r0) ++ " records dumped" } ∧
    (r0 ≤ r1 → ((pyRange r0 r1).length : Int) = r1 - r0) ∧
    (r1 < r0 →
      (pyRange r0 r1).flatMap
        (perIndexLines fw.detokenize fw.formatTensor args (trainDataset fw args)) = [] ∧
      r1 - r0 < 0) := by
  refine ⟨runScript_ok_closed fw args r0 r1 hr hp ha, ?_, ?_⟩
  · intro h
    rw [pyRange_length]
    omega
  · intro h
    rw [pyRange_nil r0 r1 h.le]
    exact ⟨rfl, by omega⟩

/-- Witness for C9 at the reversed range `[8, 5]`: no records are written and
the summary reports `-3`. -/
theorem c9_witness :
    runScript exFramework exArgsReversed = Except.ok
      { records := [], summary := "*** -3 records dumped" } ∧
    (5 : Int) - 8 < 0 := by
  obtain ⟨h1, -, h3⟩ := c9_summary_count exFramework exArgsReversed 8 5 rfl rfl rfl
  exact ⟨h1.trans (by rfl), (h3 (by norm_num)).2⟩

/-- C10: `--sample-id-range` accepts any list of one or more integers, so a
single-integer invocation passes argument parsing; the script then fails with
an out-of-range index access (reading element 1 at the loop bounds) rather
than a usage `ValueError`. -/
theorem c10_single_element_range (fw : Framework) (args : Args) (v : Int)
    (hr : args.sample_id_range = [v])
    (hp : (args.print_tokens || args.print_text) = true)
    (ha : (args.all_tokens && !args.print_tokens) = false) :
    (∀ xs : List Int, sampleIdRangeAccepts xs = true ↔ 1 ≤ xs.length) ∧
    sampleIdRangeAccepts args.sample_id_range = true ∧
    runScript fw args = Except.error ScriptError.indexError ∧
    ∀ m, runScript fw args ≠ Except.error (ScriptError.valueError m) := by
  have hrun : runScript fw args = Except.error ScriptError.indexError := by
    unfold runScript
    rw [hr, hp, ha]
    simp
  refine ⟨fun xs => by simp [sampleIdRangeAccepts], by simp [sampleIdRangeAccepts, hr],
    hrun, ?_⟩
  intro m
  rw [hrun]
  simp

/-- Witness for C10 at the concrete single-integer invocation
`exArgsSingle`: accepted by the parser, then `IndexError`. -/
theorem c10_witness :
    sampleIdRangeAccepts exArgsSingle.sample_id_range = true ∧
    runScript exFramework exArgsSingle = Except.error ScriptError.indexError := by
  obtain ⟨-, h2, h3, -⟩ := c10_single_element_range exFramework exArgsSingle 5 rfl rfl rfl
  exact ⟨h2, h3⟩

end SampleIdxsToText
